import Mathlib

/-!
Verification of the QafzhSolar marketplace backend (Node/Express/Mongoose).

This file shallowly embeds the identity component (controllers/authController.js,
middlewares/checkUserVerified.js, the User schema in models/auth.js and the
auth middleware in middlewares/auth.js) and the listing moderation component
(models/product.js, controllers/productController.js, the validation
middleware in middlewares/validation.js, and the admin status-transition
endpoint mounted in routes/userRoutes.js).

Conventions of the embedding:
- Timestamps are `Nat` milliseconds since the epoch (JS `Date.now()`).
- Missing JSON fields (`undefined`) are `Option.none`; JS string falsiness
  (`!s`, true for `undefined`/`null`/`''`) is `jsFalsyStr`.
- A Mongo collection is a `List` of documents; `findOne`/`findById` is
  `List.find?`; an in-place `save` of one document is a guarded `List.map`.
- The bcrypt hash is embedded as an injective tagging function; only equality
  of hashes is ever observed by the code.
-/

namespace QafzhSolar

/-- Listing status domain (spec section 3; the `part_002` product schema lists
all five values, while `models/product.js` restricts its enum to the first
three). -/
inductive Status where
  | pending
  | approved
  | rejected
  | sold
  | inactive
deriving DecidableEq, Repr

/-- A user document of the `User` schema in models/auth.js: phone-keyed
principal with inline one-time-code fields.  The controller
(`registerUser`) also stores a password hash, which we carry here. -/
structure User where
  id : Nat
  name : String
  phone : String
  password : Option String
  profileImageUrl : Option String
  otp : Option String
  otpExpires : Option Nat
  isVerified : Bool
  role : String
  isActive : Bool
  lastLogin : Option Nat
deriving DecidableEq, Repr

/-- JS `String.prototype.trim()`: strips leading and trailing whitespace
(an executable embedding working on the character list). -/
def jsTrim (s : String) : String :=
  String.mk (((s.data.dropWhile Char.isWhitespace).reverse.dropWhile Char.isWhitespace).reverse)

/-- JS emptiness test for a string (`s === ''`), on the character list. -/
def jsEmpty (s : String) : Bool := s.data.isEmpty

/-- JS `.length` of a string (code-unit count; character count for the ASCII
data handled here). -/
def jsLength (s : String) : Nat := s.data.length

/-- JS falsiness for an optional string: `undefined`, `null` and `''` are
falsy. -/
def jsFalsyStr : Option String → Bool
  | none => true
  | some s => jsEmpty s

/-- `User.findOne ⟨phone⟩`. -/
def lookupPhone (s : List User) (phone : String) : Option User :=
  s.find? (fun u => u.phone == phone)

/-- Persisting a modified user document: every document with this phone is
replaced by the new value (phones are unique, so this is the single-document
`save`). -/
def updateUser (s : List User) (phone : String) (w : User) : List User :=
  s.map (fun u => if u.phone == phone then w else u)

/-- The bcrypt hash, embedded as injective tagging; the code only ever
compares a candidate's hash against the stored hash. -/
def hashPassword (p : String) : String := "bcrypt$" ++ p

/-- `bcrypt.compare(candidate, storedHash)`: `none` models the exception
thrown when no hash is stored (caught as a 500 by the caller). -/
def bcryptCompare (candidate : String) (stored : Option String) : Option Bool :=
  match stored with
  | none => none
  | some h => some (hashPassword candidate == h)

/-- The password policy regex of `registerUser`:
`^(?=.*[a-z])(?=.*[A-Z])(?=.*\d)(?=.*[@$!%*?&]).{6,}$`. -/
def passwordPolicy (p : String) : Bool :=
  decide (6 ≤ jsLength p) &&
  p.toList.any (fun c => c.isLower) &&
  p.toList.any (fun c => c.isUpper) &&
  p.toList.any (fun c => c.isDigit) &&
  p.toList.any (fun c => c ∈ ['@', '$', '!', '%', '*', '?', '&'])

/-- `regex.test(password)` coerces a missing password to the string
"undefined" before testing. -/
def jsStringOf : Option String → String
  | none => "undefined"
  | some s => s

/-- `userSchema.methods.generateOTP`: the code is the constant `'112233'`
with a 10-minute expiry. -/
def generateOTP (now : Nat) (u : User) : User :=
  { u with otp := some "112233", otpExpires := some (now + 600000) }

/-- `userSchema.methods.clearOTP`: clears the code fields and marks the
account verified. -/
def clearOTP (u : User) : User :=
  { u with otp := none, otpExpires := none, isVerified := true }

/-- `userSchema.methods.verifyOTP(inputOtp)`: false when the code fields are
absent (`!this.otp || !this.otpExpires`; the stored code is a string, so `''`
is also falsy), false when the expiry has passed, else string equality. -/
def verifyOTPCheck (now : Nat) (u : User) (input : String) : Bool :=
  match u.otp, u.otpExpires with
  | some c, some e =>
      if jsEmpty c then false
      else if e < now then false
      else c == input
  | _, _ => false

/-- Outcome of an identity endpoint: `issued` means a session credential was
produced (`createSendToken` / `generateToken`); `ok` is a success without a
credential; `failed` carries the HTTP failure code. -/
inductive AuthOutcome where
  | issued (phone role : String)
  | ok (code : Nat)
  | failed (code : Nat)
deriving DecidableEq, Repr

/-- A fresh user document as built by `new User({phone, name, password,
profileImageUrl})` with the schema defaults. -/
def newUser (uid : Nat) (phone name : String) (password profileImageUrl : Option String) : User :=
  { id := uid, name := name, phone := phone, password := password,
    profileImageUrl := profileImageUrl, otp := none, otpExpires := none,
    isVerified := false, role := "user", isActive := true, lastLogin := none }

/-- `authController.registerUser`: the password-policy check runs first; an
existing verified account is a 409 conflict; an existing unverified account is
reused and gets a fresh code; otherwise a new account is created.  `uid` is
the identifier the store would assign to a newly created document. -/
def registerUser (now uid : Nat) (phone name : String)
    (password profileImageUrl : Option String) (s : List User) :
    AuthOutcome × List User :=
  if !(passwordPolicy (jsStringOf password)) then (.failed 400, s)
  else
    match lookupPhone s phone with
    | some u =>
      if u.isVerified then (.failed 409, s)
      else (.ok 201, updateUser s phone (generateOTP now u))
    | none =>
      let u := generateOTP now
        (newUser uid phone name (some (hashPassword (jsStringOf password))) profileImageUrl)
      (.ok 201, s ++ [u])

/-- `authController.requestOTP`: 404 when no account; otherwise regenerates
the code. -/
def requestOTP (now : Nat) (phone : String) (s : List User) :
    AuthOutcome × List User :=
  match lookupPhone s phone with
  | none => (.failed 404, s)
  | some u => (.ok 200, updateUser s phone (generateOTP now u))

/-- `authController.verifyOTP` (the controller body, after the validation
middleware): 404 when no account, 400 when the model check fails, else clears
the code, marks verified, records `lastLogin` and issues a credential via
`createSendToken`. -/
def verifyOTPController (now : Nat) (phone otpVal : String) (s : List User) :
    AuthOutcome × List User :=
  match lookupPhone s phone with
  | none => (.failed 404, s)
  | some u =>
    if verifyOTPCheck now u otpVal then
      (.issued u.phone u.role,
       updateUser s phone { clearOTP u with lastLogin := some now })
    else (.failed 400, s)

/-- The `/auth/verify-otp/:phone` route: `validateOTPVerification` (phone and
code present, phone at least 8 characters, code exactly 6 characters) followed
by `authController.verifyOTP`. -/
def verifyOTPRoute (now : Nat) (phone : String) (otp : Option String)
    (s : List User) : AuthOutcome × List User :=
  if jsEmpty phone || jsFalsyStr otp then (.failed 400, s)
  else if jsLength phone < 8 then (.failed 400, s)
  else if jsLength (jsStringOf otp) ≠ 6 then (.failed 400, s)
  else verifyOTPController now phone (jsStringOf otp) s

/-- `authController.login`: 400 when phone or password is missing, 404 when no
account, 401 on hash mismatch, 500 when the stored hash is absent (bcrypt
throws), else issues a credential.  The active flag is never consulted. -/
def login (phone password : Option String) (s : List User) :
    AuthOutcome × List User :=
  if jsFalsyStr phone || jsFalsyStr password then (.failed 400, s)
  else
    match lookupPhone s (jsStringOf phone) with
    | none => (.failed 404, s)
    | some u =>
      match bcryptCompare (jsStringOf password) u.password with
      | none => (.failed 500, s)
      | some false => (.failed 401, s)
      | some true => (.issued u.phone u.role, s)

/-- `authController.updateProfile` for the account with this phone (the source
keys it by the authenticated `_id`; phones are unique and immutable, so the
phone is a faithful stand-in). Only `name` and `profileImageUrl` change. -/
def updateProfile (phone : String) (name profileImageUrl : Option String)
    (s : List User) : AuthOutcome × List User :=
  match lookupPhone s phone with
  | none => (.failed 404, s)
  | some u =>
    (.ok 200, updateUser s phone
      { u with name := name.getD u.name,
               profileImageUrl :=
                 match profileImageUrl with
                 | none => u.profileImageUrl
                 | some v => some v })

/-- `authController.deleteAccount`: soft delete, sets the active flag to
false. -/
def deleteAccount (phone : String) (s : List User) : AuthOutcome × List User :=
  match lookupPhone s phone with
  | none => (.failed 404, s)
  | some u => (.ok 200, updateUser s phone { u with isActive := false })

/-- `productController.verifyOtp` (the second, body-driven verification
endpoint): 400 when the code is falsy, 404 when no account, 400 when the code
mismatches or the stored expiry lies in the past (`user.otpExpires <
Date.now()`, with a missing expiry coerced to 0), else marks verified and
clears the code (no credential is issued here). -/
def verifyOtpProduct (now : Nat) (phone otp : Option String) (s : List User) :
    AuthOutcome × List User :=
  if jsFalsyStr otp then (.failed 400, s)
  else
    match phone with
    | none => (.failed 404, s)
    | some p =>
      match lookupPhone s p with
      | none => (.failed 404, s)
      | some u =>
        if u.otp != some (jsStringOf otp) || (u.otpExpires.getD 0) < now then
          (.failed 400, s)
        else
          (.ok 201, updateUser s p
            { u with isVerified := true, otp := none, otpExpires := none })

/-- Outcome of the `checkUserVerified` gate: either the request proceeds with
the resolved account attached, or it halts with an HTTP code. -/
inductive GateOutcome where
  | proceed (u : User)
  | halt (code : Nat)
deriving DecidableEq, Repr

/-- `middlewares/checkUserVerified.js`: resolves the account by the phone in
the request body; a verified account proceeds; an unverified account gets its
stored code overwritten with the constant 112233 (cast to the string
`"112233"` by the schema) and a 5-minute expiry, and the request halts with
404. -/
def checkUserVerified (now : Nat) (phone : Option String) (s : List User) :
    GateOutcome × List User :=
  if jsFalsyStr phone then (.halt 400, s)
  else
    match lookupPhone s (jsStringOf phone) with
    | none => (.halt 404, s)
    | some u =>
      if u.isVerified then (.proceed u, s)
      else
        (.halt 404, updateUser s (jsStringOf phone)
          { u with otp := some "112233", otpExpires := some (now + 300000) })

/-- A decoded bearer credential: the account reference and the role baked in
at signing time (`signToken`). -/
structure Token where
  phone : String
  role : String
deriving DecidableEq, Repr

/-- `middlewares/auth.js` `authToken`, user-role branch: 401 when the token is
missing, when the referenced account no longer exists, or when it is
inactive; otherwise the account is attached to the request.  (Admin-role
tokens are resolved against the separate Admin collection and are outside
this embedding.) -/
def authTokenUser (s : List User) (tok : Option Token) : Except Nat User :=
  match tok with
  | none => .error 401
  | some t =>
    match lookupPhone s t.phone with
    | none => .error 401
    | some u => if !u.isActive then .error 401 else .ok u

/-- Flips the active flag off; used to state that login and code verification
ignore the flag. -/
def setInactive (u : User) : User := { u with isActive := false }

/-- A product document of `models/product.js` (the claim-relevant fields;
`ptype` embeds the source field `type`). -/
structure Product where
  id : Nat
  name : String
  ptype : String
  condition : String
  price : Int
  phone : String
  governorate : String
  city : String
  userId : Nat
  status : Status
  isActive : Bool
  rejectionReason : Option String
  approvedBy : Option Nat
  approvedAt : Option Nat
  createdAt : Nat
  expiresAt : Nat
deriving DecidableEq, Repr

/-- A product request body: missing JSON fields are `none`.  `status` and
`expiresAt` may be supplied by the client, since `postProduct` spreads the
whole body into the new document. -/
structure ProductBody where
  name : Option String
  ptype : Option String
  condition : Option String
  price : Option Int
  phone : Option String
  governorate : Option String
  city : Option String
  status : Option Status
  expiresAt : Option Nat
deriving DecidableEq, Repr

/-- The `type` enum of the `validateProductCreation` middleware. -/
def validTypes : List String :=
  ["Inverter", "Panel", "Battery", "Accessory", "Cable", "Controller", "Monitor", "Other"]

/-- The `condition` enum shared by the middleware and the schema. -/
def validConditions : List String :=
  ["New", "Used", "Needs Repair", "Refurbished"]

/-- Failure of the middleware name check:
`!name || name.trim().length < 2 || name.trim().length > 200`. -/
def nameFail (b : ProductBody) : Bool :=
  match b.name with
  | none => true
  | some n => jsEmpty n || jsLength (jsTrim n) < 2 || 200 < jsLength (jsTrim n)

/-- Failure of the middleware type check: `!type || !validTypes.includes(type)`. -/
def typeFail (b : ProductBody) : Bool :=
  match b.ptype with
  | none => true
  | some t => jsEmpty t || !(validTypes.contains t)

/-- Failure of the middleware condition check. -/
def conditionFail (b : ProductBody) : Bool :=
  match b.condition with
  | none => true
  | some c => jsEmpty c || !(validConditions.contains c)

/-- Failure of the middleware price check:
`!price || price < 0 || price > 999999999`.  Note that the JS falsiness test
`!price` is true for the number 0, so a zero price fails. -/
def priceFail (b : ProductBody) : Bool :=
  match b.price with
  | none => true
  | some v => v == 0 || v < 0 || 999999999 < v

/-- Failure of the middleware phone check: `!phone || phone.length < 8`. -/
def phoneFail (b : ProductBody) : Bool :=
  match b.phone with
  | none => true
  | some p => jsEmpty p || jsLength p < 8

/-- Failure of the middleware governorate check:
`!governorate || governorate.trim().length === 0`. -/
def governorateFail (b : ProductBody) : Bool :=
  match b.governorate with
  | none => true
  | some g => jsEmpty g || jsLength (jsTrim g) == 0

/-- Failure of the middleware city check. -/
def cityFail (b : ProductBody) : Bool :=
  match b.city with
  | none => true
  | some c => jsEmpty c || jsLength (jsTrim c) == 0

/-- The field whose check failed, as reported by the 400 message of
`validateProductCreation`. -/
inductive ProductValidationError where
  | badName
  | badType
  | badCondition
  | badPrice
  | badPhone
  | badGovernorate
  | badCity
deriving DecidableEq, Repr

/-- `middlewares/validation.js` `validateProductCreation`: an if-chain that
reports the first failing check, in the fixed source order. -/
def validateProductCreation (b : ProductBody) : Option ProductValidationError :=
  if nameFail b then some .badName
  else if typeFail b then some .badType
  else if conditionFail b then some .badCondition
  else if priceFail b then some .badPrice
  else if phoneFail b then some .badPhone
  else if governorateFail b then some .badGovernorate
  else if cityFail b then some .badCity
  else none

/-- The Mongo filter of `browseProducts`: `{ status: 'approved' }` and nothing
else — neither `expiresAt` nor `isActive` is consulted. -/
def browseFilter (p : Product) : Bool := p.status == Status.approved

/-- The set of documents matched by the Browse query (what `countDocuments`
counts; response pages are slices of it). -/
def browseMatched (db : List Product) : List Product := db.filter browseFilter

/-- Insert into a list sorted by `createdAt` descending. -/
def insertDesc (p : Product) : List Product → List Product
  | [] => [p]
  | q :: qs => if q.createdAt ≤ p.createdAt then p :: q :: qs else q :: insertDesc p qs

/-- Sort by `createdAt` descending (the `.sort({ createdAt: -1 })` of the
browse query). -/
def sortByCreatedDesc : List Product → List Product
  | [] => []
  | p :: ps => insertDesc p (sortByCreatedDesc ps)

/-- `productController.browseProducts`: filter on `status = 'approved'`, sort
by creation time descending, then `skip((page-1)*limit).limit(limit)`. -/
def browseProducts (page limit : Nat) (db : List Product) : List Product :=
  (((sortByCreatedDesc (browseMatched db)).drop ((page - 1) * limit)).take limit)

/-- `productSchema.statics.findApproved`: status approved, active, and expiry
strictly in the future.  No mounted route calls it; the Browse endpoint uses
its own filter (`browseFilter`). -/
def findApproved (now : Nat) (db : List Product) : List Product :=
  db.filter (fun p => p.status == Status.approved && p.isActive && now < p.expiresAt)

/-- Schema-level `save` validation of `models/product.js` for the embedded
fields: required strings present and non-empty, `name` within 3..200 after
trimming, `type` and `condition` in the schema enums, `price ≥ 0`, and a
client-supplied `status` restricted to the schema enum
`['pending','approved','rejected']`. -/
def mongooseProductValid (b : ProductBody) : Bool :=
  (match b.name with
   | none => false
   | some n => 3 ≤ jsLength (jsTrim n) && jsLength (jsTrim n) ≤ 200) &&
  (match b.ptype with
   | none => false
   | some t => ["Inverter", "Panel", "Battery", "Accessory", "Panel bases", "Other"].contains t) &&
  (match b.condition with
   | none => false
   | some c => validConditions.contains c) &&
  (match b.price with
   | none => false
   | some v => 0 ≤ v) &&
  (match b.phone with | none => false | some p => !(jsEmpty (jsTrim p))) &&
  (match b.governorate with | none => false | some g => !(jsEmpty (jsTrim g))) &&
  (match b.city with | none => false | some c => !(jsEmpty (jsTrim c))) &&
  (match b.status with
   | none => true
   | some st => [Status.pending, Status.approved, Status.rejected].contains st)

/-- The document built by `new Product({...productData, userId: user._id})`
with the schema defaults of `models/product.js`: `status` defaults to
`'approved'` (the schema comment reads: changed from pending to approved for
auto-approval), `expiresAt` defaults to now + 90 days, `isActive` to true.
Only `userId` is forced to the submitting account. -/
def buildProduct (now pid uid : Nat) (b : ProductBody) : Product :=
  { id := pid,
    name := jsTrim (jsStringOf b.name),
    ptype := jsStringOf b.ptype,
    condition := jsStringOf b.condition,
    price := b.price.getD 0,
    phone := jsTrim (jsStringOf b.phone),
    governorate := jsTrim (jsStringOf b.governorate),
    city := jsTrim (jsStringOf b.city),
    userId := uid,
    status := b.status.getD Status.approved,
    isActive := true,
    rejectionReason := none,
    approvedBy := none,
    approvedAt := none,
    createdAt := now,
    expiresAt := b.expiresAt.getD (now + 7776000000) }

/-- `productController.postProduct`: the save succeeds when the schema
validation passes (a validation failure surfaces as the catch-all 500). -/
def postProduct (now pid uid : Nat) (b : ProductBody) : Except Nat Product :=
  if mongooseProductValid b then .ok (buildProduct now pid uid b) else .error 500

/-- Outcome of the product submission route. -/
inductive RouteRes where
  | created (p : Product)
  | failed (code : Nat)
deriving DecidableEq, Repr

/-- The Submit pipeline `router.post('/post', checkUserVerified,
productController.postProduct)`: the gate resolves the account by the phone in
the body; on proceed the listing is persisted with `userId` set to that
account. -/
def postProductRoute (now pid : Nat) (phone : Option String) (b : ProductBody)
    (s : List User) (db : List Product) :
    RouteRes × List User × List Product :=
  match checkUserVerified now phone s with
  | (.halt c, s2) => (.failed c, s2, db)
  | (.proceed u, s2) =>
    match postProduct now pid u.id b with
    | .error c => (.failed c, s2, db)
    | .ok p => (.created p, s2, db ++ [p])

/-- The admin moderation graph of spec section 4.2 restricted to the
`Transition` operation (the rejected-to-pending edge is the owner-initiated
resubmission, not an admin transition). -/
def allowedTransition : Status → Status → Bool
  | .pending, .approved => true
  | .pending, .rejected => true
  | .approved, .sold => true
  | .approved, .inactive => true
  | .inactive, .approved => true
  | _, _ => false

/-- The full moderation graph of spec section 4.2, including the
owner-initiated resubmission edge rejected → pending. -/
def moderationEdge : Status → Status → Bool
  | .rejected, .pending => true
  | a, b => allowedTransition a b

/-- Modelled from the spec: the admin status-transition controller
(`adminApprovalController.updateProductStatus`, mounted at
PATCH /api/v1/admin/update/:id in routes/userRoutes.js) is not present under
src/.  Behavior modelled from spec section 4.2 and the route documentation:
404 when the listing is absent; Bad-Request when the requested transition is
not an outgoing edge of the current status; Bad-Request when rejecting with an
absent or empty reason; on success records the reason, the acting admin and a
disposition timestamp, clearing any prior rejection reason on approval. -/
def transitionStore (now adminId pid : Nat) (newStatus : Status)
    (reason : Option String) (db : List Product) : Option Nat × List Product :=
  match db.find? (fun p => p.id == pid) with
  | none => (some 404, db)
  | some p =>
    if !(allowedTransition p.status newStatus) then (some 400, db)
    else if newStatus == Status.rejected &&
        (match reason with | none => true | some r => jsEmpty (jsTrim r)) then
      (some 400, db)
    else
      let p2 := { p with
        status := newStatus,
        rejectionReason := if newStatus == Status.rejected then reason else none,
        approvedBy := some adminId,
        approvedAt := some now }
      (none, db.map (fun q => if q.id == pid then p2 else q))

/-- The auth-component endpoints as a single operation type, for stating
invariants over arbitrary operation sequences. -/
inductive AuthOp where
  | opRegister (now uid : Nat) (phone name : String) (password profileImageUrl : Option String)
  | opRequestOTP (now : Nat) (phone : String)
  | opVerifyOTP (now : Nat) (phone : String) (otp : Option String)
  | opVerifyOtpProduct (now : Nat) (phone otp : Option String)
  | opLogin (phone password : Option String)
  | opUpdateProfile (phone : String) (name profileImageUrl : Option String)
  | opDeleteAccount (phone : String)
  | opCheckUserVerified (now : Nat) (phone : Option String)
deriving DecidableEq, Repr

/-- The store effect of one operation. -/
def runOpStore : AuthOp → List User → List User
  | .opRegister now uid phone name pw img, s => (registerUser now uid phone name pw img s).2
  | .opRequestOTP now phone, s => (requestOTP now phone s).2
  | .opVerifyOTP now phone otp, s => (verifyOTPRoute now phone otp s).2
  | .opVerifyOtpProduct now phone otp, s => (verifyOtpProduct now phone otp s).2
  | .opLogin phone pw, s => (login phone pw s).2
  | .opUpdateProfile phone name img, s => (updateProfile phone name img s).2
  | .opDeleteAccount phone, s => (deleteAccount phone s).2
  | .opCheckUserVerified now phone, s => (checkUserVerified now phone s).2

/-- Runs a sequence of operations against the account store. -/
def runOps (ops : List AuthOp) (s : List User) : List User :=
  ops.foldl (fun t op => runOpStore op t) s

/-- Fixture: a verified, active account. -/
def uVerified : User :=
  { id := 7, name := "Ali", phone := "77712345",
    password := some (hashPassword "Aa1!xyz"), profileImageUrl := none,
    otp := none, otpExpires := none, isVerified := true, role := "user",
    isActive := true, lastLogin := none }

/-- Fixture: an unverified account holding the constant code with a live
expiry. -/
def uUnverified : User :=
  { uVerified with
    id := 8, phone := "77754321", isVerified := false,
    otp := some "112233", otpExpires := some 600000 }

/-- Fixture: an inactive (soft-deleted), unverified account holding a live
code. -/
def uInactive : User :=
  { uUnverified with id := 9, phone := "77700001", isActive := false }

/-- Fixture: an unverified account whose code expiry has passed. -/
def uExpired : User :=
  { uUnverified with id := 10, phone := "77700002", otpExpires := some 500 }

/-- Fixture: an approved listing whose 90-day expiry has already passed at
`browseNow`. -/
def expiredListing : Product :=
  { id := 1, name := "Solar Panel", ptype := "Panel", condition := "New",
    price := 100, phone := "77712345", governorate := "Aden", city := "Aden",
    userId := 7, status := Status.approved, isActive := true,
    rejectionReason := none, approvedBy := none, approvedAt := none,
    createdAt := 0, expiresAt := 7776000000 }

/-- Fixture: a query instant strictly after `expiredListing.expiresAt`. -/
def browseNow : Nat := 7776000001

/-- Fixture: a pending listing. -/
def pendingListing : Product :=
  { expiredListing with id := 2, status := Status.pending, expiresAt := 9000000000 }

/-- Fixture: a well-formed product submission body with no client-supplied
status or expiry. -/
def sampleBody : ProductBody :=
  { name := some "Solar Panel", ptype := some "Panel", condition := some "New",
    price := some 100, phone := some "77712345", governorate := some "Aden",
    city := some "Aden", status := none, expiresAt := none }

/-- Fixture: the same body with a zero price. -/
def zeroPriceBody : ProductBody := { sampleBody with price := some 0 }

/-! ## Helper lemmas -/

/-- A phone lookup only returns a document carrying that phone. -/
theorem lookupPhone_eq_phone {s : List User} {q : String} {u : User}
    (h : lookupPhone s q = some u) : u.phone = q := by
  have hb := List.find?_some h
  exact eq_of_beq hb

/-- Phone lookups commute with a map that preserves phones. -/
theorem lookupPhone_map_of_phone (g : User → User)
    (hg : ∀ u, (g u).phone = u.phone) (s : List User) (q : String) :
    lookupPhone (s.map g) q = (lookupPhone s q).map g := by
  induction s with
  | nil => rfl
  | cons a t ih =>
    simp only [lookupPhone, List.map_cons, List.find?_cons] at *
    rw [hg a]
    cases h : (a.phone == q) <;> simp [h, ih]

/-- The effect of a single-document save on later phone lookups. -/
theorem lookupPhone_update (s : List User) (p : String) (w : User)
    (hw : w.phone = p) (q : String) :
    lookupPhone (updateUser s p w) q =
      (lookupPhone s q).map (fun u => if u.phone == p then w else u) := by
  apply lookupPhone_map_of_phone
  intro u
  by_cases h : (u.phone == p) = true
  · simp [h, hw, eq_of_beq h]
  · simp [h]

/-- A phone lookup that succeeds is unaffected by appending documents. -/
theorem lookupPhone_append_left {s : List User} {q : String} {u : User}
    (h : lookupPhone s q = some u) (t : List User) :
    lookupPhone (s ++ t) q = some u := by
  unfold lookupPhone at *
  rw [List.find?_append, h]
  rfl

/-- A single-document save whose document keeps its phone, only observed
through lookups, preserves a true verified flag provided the saved document
keeps it. -/
theorem verified_after_update {s : List User} {q : String} {u : User}
    (p : String) (w : User) (hw : w.phone = p)
    (h : lookupPhone s q = some u) (hv : u.isVerified = true)
    (hmono : u.phone = p → w.isVerified = true) :
    ∃ v, lookupPhone (updateUser s p w) q = some v ∧ v.isVerified = true := by
  rw [lookupPhone_update s p w hw q, h]
  by_cases hp : (u.phone == p) = true
  · exact ⟨w, by simp only [Option.map_some']; rw [if_pos hp], hmono (eq_of_beq hp)⟩
  · exact ⟨u, by simp only [Option.map_some']; rw [if_neg hp], hv⟩

/-! ## C1 — Browse visibility -/

/-- C1 counterexample: an approved listing whose expiry timestamp lies
strictly in the past still appears in the `browseProducts` results (the
Browse query filters on status alone), refuting the claim that a listing
appears in Browse results only if its expiry is strictly in the future. -/
theorem C1_counterexample :
    expiredListing ∈ browseProducts 1 10 [expiredListing] ∧
    expiredListing.expiresAt < browseNow ∧
    expiredListing.status = Status.approved := by
  decide

/-- C1 amended: a listing appears in the set of documents matched by the
Browse query if and only if its stored status equals `approved`; neither the
expiry timestamp nor the active flag is consulted by the query. -/
theorem C1_browse_membership (db : List Product) (p : Product) :
    p ∈ browseMatched db ↔ p ∈ db ∧ p.status = Status.approved := by
  simp [browseMatched, browseFilter, List.mem_filter]

/-! ## C2 — Transition graph closure (spec-modelled controller) -/

/-- C2: for every stored listing and every requested status such that the
pair (current status, requested status) is not an edge of the moderation
graph of spec section 4.2, the modelled `Transition` endpoint fails with a
Bad-Request and leaves the product store — in particular the listing's
status — unchanged. -/
theorem C2_transition_closed (now adminId pid : Nat) (newStatus : Status)
    (reason : Option String) (db : List Product) (p : Product)
    (hfind : db.find? (fun q => q.id == pid) = some p)
    (hedge : moderationEdge p.status newStatus = false) :
    transitionStore now adminId pid newStatus reason db = (some 400, db) := by
  have hallow : allowedTransition p.status newStatus = false := by
    revert hedge
    cases p.status <;> cases newStatus <;> simp [moderationEdge, allowedTransition]
  unfold transitionStore
  rw [hfind]
  simp [hallow]

/-- C2 witness: transitioning a pending listing directly to sold is not an
edge of the graph; the call fails and the store is unchanged. -/
theorem C2_witness :
    transitionStore 5 1 2 Status.sold none [pendingListing] =
      (some 400, [pendingListing]) :=
  C2_transition_closed 5 1 2 Status.sold none [pendingListing] pendingListing
    (by decide) (by decide)

/-! ## C3 — Rejection requires a reason (spec-modelled controller) -/

/-- C3: every `Transition` call with requested status `rejected` and an
absent or blank reason fails, and the product store — hence every field of
the listing — is unchanged. -/
theorem C3_reject_requires_reason (now adminId pid : Nat)
    (reason : Option String) (db : List Product) (p : Product)
    (hfind : db.find? (fun q => q.id == pid) = some p)
    (hreason : (match reason with
                | none => true
                | some r => jsEmpty (jsTrim r)) = true) :
    transitionStore now adminId pid Status.rejected reason db = (some 400, db) := by
  unfold transitionStore
  rw [hfind]
  by_cases h : allowedTransition p.status Status.rejected = true
  · simp [h, hreason]
  · simp [h]

/-- C3 witness: rejecting a pending listing with no reason fails and leaves
the store unchanged. -/
theorem C3_witness :
    transitionStore 5 1 2 Status.rejected none [pendingListing] =
      (some 400, [pendingListing]) :=
  C3_reject_requires_reason 5 1 2 none [pendingListing] pendingListing
    (by decide) (by decide)

/-! ## C4 — Submit defaults -/

/-- When the `checkUserVerified` gate lets a request proceed, the attached
account is the (verified) account found under the body phone and the user
store is untouched. -/
theorem checkUserVerified_proceed {now : Nat} {phone : Option String}
    {s s2 : List User} {u : User}
    (h : checkUserVerified now phone s = (.proceed u, s2)) :
    lookupPhone s (jsStringOf phone) = some u ∧ u.isVerified = true ∧ s2 = s := by
  unfold checkUserVerified at h
  by_cases hf : jsFalsyStr phone = true
  · rw [if_pos hf] at h
    cases h
  · rw [if_neg hf] at h
    cases hl : lookupPhone s (jsStringOf phone) with
    | none => rw [hl] at h; cases h
    | some u0 =>
      rw [hl] at h
      dsimp only at h
      by_cases hv : u0.isVerified = true
      · rw [if_pos hv] at h
        obtain ⟨h1, h2⟩ := Prod.mk.injEq .. ▸ h
        cases h1
        exact ⟨rfl, hv, h2.symm⟩
      · rw [if_neg hv] at h
        cases h

/-- C4 counterexample: a successful Submit with no client-supplied status
persists the listing with status `approved` — not `pending` — because the
schema default was changed to auto-approval. -/
theorem C4_counterexample :
    (postProductRoute 0 2 (some "77712345") sampleBody [uVerified] []).1 =
      RouteRes.created (buildProduct 0 2 7 sampleBody) ∧
    (buildProduct 0 2 7 sampleBody).status = Status.approved ∧
    (Status.approved == Status.pending) = false := by
  decide

/-- C4 amended: every successful Submit whose body supplies neither a status
nor an expiry persists a listing owned by the account resolved from the body
phone, with status `approved` (the auto-approval schema default) and expiry
equal to the creation instant plus 90 days; the listing is appended to the
product store. -/
theorem C4_submit_defaults (now pid : Nat) (phone : Option String)
    (b : ProductBody) (s : List User) (db : List Product) (p : Product)
    (s2 : List User) (db2 : List Product)
    (hst : b.status = none) (hexp : b.expiresAt = none)
    (hrun : postProductRoute now pid phone b s db = (.created p, s2, db2)) :
    ∃ u, lookupPhone s (jsStringOf phone) = some u ∧ u.isVerified = true ∧
      p.userId = u.id ∧ p.status = Status.approved ∧
      p.expiresAt = now + 7776000000 ∧ db2 = db ++ [p] := by
  unfold postProductRoute at hrun
  rcases hcv : checkUserVerified now phone s with ⟨g, s3⟩
  rw [hcv] at hrun
  cases g with
  | halt c => cases hrun
  | proceed u =>
    obtain ⟨hl, hv, hs3⟩ := checkUserVerified_proceed hcv
    refine ⟨u, hl, hv, ?_⟩
    unfold postProduct at hrun
    dsimp only at hrun
    by_cases hvd : mongooseProductValid b = true
    · rw [if_pos hvd] at hrun
      have hp : buildProduct now pid u.id b = p := by
        have := congrArg Prod.fst hrun
        simpa using this
      have hdb : db2 = db ++ [buildProduct now pid u.id b] := by
        have := congrArg (fun x => x.2.2) hrun
        simpa using this.symm
      subst hp
      refine ⟨rfl, ?_, ?_, by rw [hdb]⟩
      · simp [buildProduct, hst]
      · simp [buildProduct, hexp]
    · rw [if_neg hvd] at hrun
      cases hrun

/-- C4 amended witness: a concrete successful submission by the verified
fixture account. -/
theorem C4_witness :
    ∃ u, lookupPhone [uVerified] (jsStringOf (some "77712345")) = some u ∧
      u.isVerified = true ∧
      (buildProduct 0 2 7 sampleBody).userId = u.id ∧
      (buildProduct 0 2 7 sampleBody).status = Status.approved ∧
      (buildProduct 0 2 7 sampleBody).expiresAt = 0 + 7776000000 ∧
      [buildProduct 0 2 7 sampleBody] = [] ++ [buildProduct 0 2 7 sampleBody] :=
  C4_submit_defaults 0 2 (some "77712345") sampleBody [uVerified] []
    (buildProduct 0 2 7 sampleBody) [uVerified] [buildProduct 0 2 7 sampleBody]
    rfl rfl (by decide)

/-! ## C6 — Code expiry -/

/-- C6: a VerifyCode call made strictly after the stored code expiry always
fails with 400 and leaves the store unchanged, whatever code value is
supplied — even the stored one. -/
theorem C6_expired_code_fails (now : Nat) (phone : String) (c : Option String)
    (s : List User) (u : User) (e : Nat)
    (hu : lookupPhone s phone = some u) (he : u.otpExpires = some e)
    (hlt : e < now) :
    verifyOTPRoute now phone c s = (AuthOutcome.failed 400, s) := by
  have hchk : verifyOTPCheck now u (jsStringOf c) = false := by
    unfold verifyOTPCheck
    cases ho : u.otp with
    | none => rw [he]
    | some code =>
      rw [he]
      cases hce : jsEmpty code <;> simp [hce, hlt]
  unfold verifyOTPRoute
  split
  · rfl
  · split
    · rfl
    · split
      · rfl
      · unfold verifyOTPController
        rw [hu]
        dsimp only
        rw [hchk]
        simp

/-- C6 witness: the fixture account whose code expired at 500 cannot verify
at time 1000 even with the correct stored code. -/
theorem C6_witness :
    verifyOTPRoute 1000 "77700002" (some "112233") [uExpired] =
      (AuthOutcome.failed 400, [uExpired]) :=
  C6_expired_code_fails 1000 "77700002" (some "112233") [uExpired] uExpired 500
    (by decide) (by decide) (by decide)

/-! ## C10 — Unverified submit mutates the account -/

/-- C10: a Submit for a phone whose account exists but is unverified halts
with 404, and as a side effect overwrites the account code with the constant
"112233" and an expiry 5 minutes in the future; the product store is
untouched but the account store is mutated. -/
theorem C10_unverified_submit_mutates (now pid : Nat) (phone : String)
    (b : ProductBody) (s : List User) (db : List Product) (u : User)
    (hne : jsEmpty phone = false)
    (hu : lookupPhone s phone = some u) (hv : u.isVerified = false) :
    postProductRoute now pid (some phone) b s db =
      (RouteRes.failed 404,
       updateUser s phone
         { u with otp := some "112233", otpExpires := some (now + 300000) },
       db) := by
  unfold postProductRoute checkUserVerified
  simp [jsFalsyStr, jsStringOf, hne, hu, hv]

/-- C10 witness: submitting for the unverified fixture account at time 0. -/
theorem C10_witness :
    postProductRoute 0 3 (some "77754321") sampleBody [uUnverified] [] =
      (RouteRes.failed 404,
       updateUser [uUnverified] "77754321"
         { uUnverified with otp := some "112233", otpExpires := some 300000 },
       []) :=
  C10_unverified_submit_mutates 0 3 "77754321" sampleBody [uUnverified] []
    uUnverified rfl rfl rfl

/-! ## C7 — Register branches -/

/-- C7 counterexample: with no password supplied and no account existing for
the phone, Register fails with 400 and creates no account — refuting the
claim that Register(phone, displayName?, password?) creates an Account
whenever none exists (the password-policy check runs before everything
else). -/
theorem C7_counterexample :
    registerUser 0 11 "77299887" "Ali" none none [] =
      (AuthOutcome.failed 400, []) := by
  decide

/-- C7 amended: provided the supplied password satisfies the policy check,
Register creates a fresh unverified account holding the constant code and a
10-minute expiry when none exists for the phone; fails with 409 when a
verified account exists; and when an unverified account exists, reuses it —
reissuing the code with a fresh expiry and adding no new account. -/
theorem C7_register_branches (now uid : Nat) (phone name : String)
    (pw : String) (img : Option String) (s : List User)
    (hpw : passwordPolicy pw = true) :
    (lookupPhone s phone = none →
       registerUser now uid phone name (some pw) img s =
         (AuthOutcome.ok 201,
          s ++ [generateOTP now (newUser uid phone name (some (hashPassword pw)) img)]))
    ∧ (∀ u, lookupPhone s phone = some u → u.isVerified = true →
         registerUser now uid phone name (some pw) img s =
           (AuthOutcome.failed 409, s))
    ∧ (∀ u, lookupPhone s phone = some u → u.isVerified = false →
         registerUser now uid phone name (some pw) img s =
           (AuthOutcome.ok 201, updateUser s phone (generateOTP now u)) ∧
         (generateOTP now u).otpExpires = some (now + 600000) ∧
         (updateUser s phone (generateOTP now u)).length = s.length) := by
  refine ⟨?_, ?_, ?_⟩
  · intro hnone
    simp [registerUser, jsStringOf, hpw, hnone]
  · intro u hu hv
    simp [registerUser, jsStringOf, hpw, hu, hv]
  · intro u hu hv
    refine ⟨by simp [registerUser, jsStringOf, hpw, hu, hv], rfl, ?_⟩
    simp [updateUser]

/-- C7 amended witness: registering again for the verified fixture account
with a policy-conforming password yields the 409 conflict. -/
theorem C7_witness :
    registerUser 2 12 "77712345" "Ali" (some "Aa1!xyz") none [uVerified] =
      (AuthOutcome.failed 409, [uVerified]) :=
  (C7_register_branches 2 12 "77712345" "Ali" "Aa1!xyz" none [uVerified]
      (by decide)).2.1 uVerified (by decide) (by decide)

/-! ## C8 — Active flag and credentials -/

/-- C8 counterexample: the VerifyCode endpoint issues a session credential to
an account whose active flag is false — refuting the claim that no operation
ever issues a credential to an inactive account. -/
theorem C8_counterexample :
    (verifyOTPRoute 0 "77700001" (some "112233") [uInactive]).1 =
      AuthOutcome.issued "77700001" "user" ∧
    uInactive.isActive = false := by
  decide

/-- C8 amended: the request guard rejects any credential referencing an
inactive account, but Login and VerifyCode never consult the active flag —
their responses are unchanged when every stored account is deactivated — so a
credential can be issued to an inactive account. -/
theorem C8_active_flag :
    (∀ (s : List User) (tok : Option Token) (u : User),
        authTokenUser s tok = Except.ok u → u.isActive = true)
    ∧ (∀ (phone pw : Option String) (s : List User),
        (login phone pw (s.map setInactive)).1 = (login phone pw s).1)
    ∧ (∀ (now : Nat) (phone : String) (otp : Option String) (s : List User),
        (verifyOTPRoute now phone otp (s.map setInactive)).1 =
          (verifyOTPRoute now phone otp s).1) := by
  refine ⟨?_, ?_, ?_⟩
  · intro s tok u h
    unfold authTokenUser at h
    cases tok with
    | none => cases h
    | some t =>
      dsimp only at h
      cases hl : lookupPhone s t.phone with
      | none => rw [hl] at h; cases h
      | some u0 =>
        rw [hl] at h
        dsimp only at h
        by_cases ha : u0.isActive = true
        · rw [ha] at h
          simp at h
          rw [← h]
          exact ha
        · have : u0.isActive = false := by
            cases hb : u0.isActive
            · rfl
            · exact absurd hb ha
          rw [this] at h
          simp at h
  · intro phone pw s
    unfold login
    by_cases hf : (jsFalsyStr phone || jsFalsyStr pw) = true
    · rw [if_pos hf, if_pos hf]
    · rw [if_neg hf, if_neg hf]
      rw [lookupPhone_map_of_phone setInactive (fun _ => rfl)]
      cases hl : lookupPhone s (jsStringOf phone) with
      | none => rfl
      | some u =>
        dsimp only [Option.map_some']
        cases hb : bcryptCompare (jsStringOf pw) u.password with
        | none => simp [setInactive, hb]
        | some v =>
          cases v <;> simp [setInactive, hb]
  · intro now phone otp s
    unfold verifyOTPRoute
    by_cases h1 : (jsEmpty phone || jsFalsyStr otp) = true
    · rw [if_pos h1, if_pos h1]
    · rw [if_neg h1, if_neg h1]
      by_cases h2 : jsLength phone < 8
      · rw [if_pos h2, if_pos h2]
      · rw [if_neg h2, if_neg h2]
        by_cases h3 : jsLength (jsStringOf otp) ≠ 6
        · rw [if_pos h3, if_pos h3]
        · rw [if_neg h3, if_neg h3]
          unfold verifyOTPController
          rw [lookupPhone_map_of_phone setInactive (fun _ => rfl)]
          cases hl : lookupPhone s phone with
          | none => rfl
          | some u =>
            dsimp only [Option.map_some']
            have hchk : verifyOTPCheck now (setInactive u) (jsStringOf otp) =
                verifyOTPCheck now u (jsStringOf otp) := rfl
            rw [hchk]
            by_cases hc : verifyOTPCheck now u (jsStringOf otp) = true
            · simp [hc, setInactive]
            · simp [hc]

/-- C8 amended witness: the guard accepts the active fixture account (whose
flag is indeed true), and a concrete login response is unchanged when the
store is deactivated. -/
theorem C8_witness :
    uVerified.isActive = true ∧
    (login (some "77712345") (some "Aa1!xyz") ([uVerified].map setInactive)).1 =
      (login (some "77712345") (some "Aa1!xyz") [uVerified]).1 :=
  ⟨C8_active_flag.1 [uVerified] (some ⟨"77712345", "user"⟩) uVerified (by rfl),
   C8_active_flag.2.1 (some "77712345") (some "Aa1!xyz") [uVerified]⟩

/-! ## C9 — Submit validation ordering -/

/-- C9 counterexample: a body that is valid in every respect except that its
price is exactly 0 is rejected (the price error), refuting the claim that any
price of at least 0 with all other required fields valid passes validation:
the JS check `!price` treats the number 0 as missing. -/
theorem C9_counterexample :
    validateProductCreation zeroPriceBody = some ProductValidationError.badPrice ∧
    zeroPriceBody.price = some 0 := by
  decide

/-- C9 amended: validation is deterministic and ordered — it passes exactly
when every per-field check passes, where the price check requires a price
strictly greater than 0 and at most 999,999,999 (price 0 is rejected by the
falsiness test, despite the error message naming 0 as the lower bound); an
invalid input is rejected with the error of the first offending field in the
fixed order name, type, condition, price, phone, governorate, city. -/
theorem C9_validation_order (b : ProductBody) :
    (validateProductCreation b = none ↔
       nameFail b = false ∧ typeFail b = false ∧ conditionFail b = false ∧
       priceFail b = false ∧ phoneFail b = false ∧ governorateFail b = false ∧
       cityFail b = false)
    ∧ (validateProductCreation b = some .badName ↔ nameFail b = true)
    ∧ (validateProductCreation b = some .badType ↔
         nameFail b = false ∧ typeFail b = true)
    ∧ (validateProductCreation b = some .badCondition ↔
         nameFail b = false ∧ typeFail b = false ∧ conditionFail b = true)
    ∧ (validateProductCreation b = some .badPrice ↔
         nameFail b = false ∧ typeFail b = false ∧ conditionFail b = false ∧
         priceFail b = true)
    ∧ (validateProductCreation b = some .badPhone ↔
         nameFail b = false ∧ typeFail b = false ∧ conditionFail b = false ∧
         priceFail b = false ∧ phoneFail b = true)
    ∧ (validateProductCreation b = some .badGovernorate ↔
         nameFail b = false ∧ typeFail b = false ∧ conditionFail b = false ∧
         priceFail b = false ∧ phoneFail b = false ∧ governorateFail b = true)
    ∧ (validateProductCreation b = some .badCity ↔
         nameFail b = false ∧ typeFail b = false ∧ conditionFail b = false ∧
         priceFail b = false ∧ phoneFail b = false ∧ governorateFail b = false ∧
         cityFail b = true)
    ∧ (priceFail b = false ↔
         ∃ v, b.price = some v ∧ 0 < v ∧ v ≤ 999999999) := by
  have hprice : priceFail b = false ↔
      ∃ v, b.price = some v ∧ 0 < v ∧ v ≤ 999999999 := by
    cases hp : b.price with
    | none => simp [priceFail, hp]
    | some v =>
      simp only [priceFail, hp, Bool.or_eq_false_iff, beq_eq_false_iff_ne,
        decide_eq_false_iff_not, Option.some.injEq]
      constructor
      · intro h
        refine ⟨v, rfl, ?_, ?_⟩ <;> omega
      · rintro ⟨w, hw, h0, h9⟩
        subst hw
        omega
  refine ⟨?_, ?_, ?_, ?_, ?_, ?_, ?_, ?_, hprice⟩ <;>
    cases h1 : nameFail b <;> cases h2 : typeFail b <;>
    cases h3 : conditionFail b <;> cases h4 : priceFail b <;>
    cases h5 : phoneFail b <;> cases h6 : governorateFail b <;>
    cases h7 : cityFail b <;>
    simp [validateProductCreation, h1, h2, h3, h4, h5, h6, h7]

/-! ## C5 — Monotonic verification -/

/-- Login never writes to the account store. -/
theorem login_store (phone pw : Option String) (s : List User) :
    (login phone pw s).2 = s := by
  unfold login
  split
  · rfl
  · split
    · rfl
    · split <;> rfl

/-- A save of a document derived from a phone lookup preserves a true
verified flag observed through any lookup, provided the derived document
keeps its phone and does not lower the flag. -/
theorem preserve_update {s : List User} {q p : String} {u u0 : User}
    {w : User}
    (h : lookupPhone s q = some u) (hv : u.isVerified = true)
    (h0 : lookupPhone s p = some u0)
    (hph : w.phone = u0.phone)
    (hm : u0.isVerified = true → w.isVerified = true) :
    ∃ v, lookupPhone (updateUser s p w) q = some v ∧ v.isVerified = true := by
  have hp0 : u0.phone = p := lookupPhone_eq_phone h0
  apply verified_after_update p w (by rw [hph, hp0]) h hv
  intro hup
  have hq : u.phone = q := lookupPhone_eq_phone h
  have hqp : q = p := by rw [← hq, hup]
  subst hqp
  have huu : u = u0 := by rw [h] at h0; exact Option.some.inj h0
  exact hm (huu ▸ hv)

/-- Every auth-component operation preserves a true verified flag: no branch
of any endpoint ever lowers `isVerified` on a stored account. -/
theorem runOpStore_preserves_verified (op : AuthOp) (s : List User)
    (q : String) (u : User)
    (h : lookupPhone s q = some u) (hv : u.isVerified = true) :
    ∃ v, lookupPhone (runOpStore op s) q = some v ∧ v.isVerified = true := by
  cases op with
  | opRegister now uid phone name pw img =>
    dsimp only [runOpStore]
    unfold registerUser
    by_cases hpw : (!(passwordPolicy (jsStringOf pw))) = true
    · rw [if_pos hpw]
      exact ⟨u, h, hv⟩
    · rw [if_neg hpw]
      cases hl : lookupPhone s phone with
      | some u0 =>
        dsimp only
        by_cases hv0 : u0.isVerified = true
        · rw [if_pos hv0]
          exact ⟨u, h, hv⟩
        · rw [if_neg hv0]
          exact preserve_update h hv hl rfl (fun hh => hh)
      | none =>
        dsimp only
        exact ⟨u, lookupPhone_append_left h _, hv⟩
  | opRequestOTP now phone =>
    dsimp only [runOpStore]
    unfold requestOTP
    cases hl : lookupPhone s phone with
    | none =>
      exact ⟨u, h, hv⟩
    | some u0 =>
      dsimp only
      exact preserve_update h hv hl rfl (fun hh => hh)
  | opVerifyOTP now phone otp =>
    dsimp only [runOpStore]
    unfold verifyOTPRoute
    by_cases h1 : (jsEmpty phone || jsFalsyStr otp) = true
    · rw [if_pos h1]
      exact ⟨u, h, hv⟩
    · rw [if_neg h1]
      by_cases h2 : jsLength phone < 8
      · rw [if_pos h2]
        exact ⟨u, h, hv⟩
      · rw [if_neg h2]
        by_cases h3 : jsLength (jsStringOf otp) ≠ 6
        · rw [if_pos h3]
          exact ⟨u, h, hv⟩
        · rw [if_neg h3]
          unfold verifyOTPController
          cases hl : lookupPhone s phone with
          | none =>
            exact ⟨u, h, hv⟩
          | some u0 =>
            dsimp only
            by_cases hc : verifyOTPCheck now u0 (jsStringOf otp) = true
            · rw [if_pos hc]
              exact preserve_update h hv hl rfl (fun _ => rfl)
            · rw [if_neg hc]
              exact ⟨u, h, hv⟩
  | opVerifyOtpProduct now phone otp =>
    dsimp only [runOpStore]
    unfold verifyOtpProduct
    by_cases h1 : jsFalsyStr otp = true
    · rw [if_pos h1]
      exact ⟨u, h, hv⟩
    · rw [if_neg h1]
      cases phone with
      | none => exact ⟨u, h, hv⟩
      | some p =>
        dsimp only
        cases hl : lookupPhone s p with
        | none =>
          exact ⟨u, h, hv⟩
        | some u0 =>
          dsimp only
          by_cases hc :
              (u0.otp != some (jsStringOf otp) || (u0.otpExpires.getD 0) < now) = true
          · rw [if_pos hc]
            exact ⟨u, h, hv⟩
          · rw [if_neg hc]
            exact preserve_update h hv hl rfl (fun _ => rfl)
  | opLogin phone pw =>
    dsimp only [runOpStore]
    rw [login_store]
    exact ⟨u, h, hv⟩
  | opUpdateProfile phone nm img =>
    dsimp only [runOpStore]
    unfold updateProfile
    cases hl : lookupPhone s phone with
    | none =>
      exact ⟨u, h, hv⟩
    | some u0 =>
      dsimp only
      exact preserve_update h hv hl rfl (fun hh => hh)
  | opDeleteAccount phone =>
    dsimp only [runOpStore]
    unfold deleteAccount
    cases hl : lookupPhone s phone with
    | none =>
      exact ⟨u, h, hv⟩
    | some u0 =>
      dsimp only
      exact preserve_update h hv hl rfl (fun hh => hh)
  | opCheckUserVerified now phone =>
    dsimp only [runOpStore]
    unfold checkUserVerified
    by_cases h1 : jsFalsyStr phone = true
    · rw [if_pos h1]
      exact ⟨u, h, hv⟩
    · rw [if_neg h1]
      cases hl : lookupPhone s (jsStringOf phone) with
      | none =>
        exact ⟨u, h, hv⟩
      | some u0 =>
        dsimp only
        by_cases hv0 : u0.isVerified = true
        · rw [if_pos hv0]
          exact ⟨u, h, hv⟩
        · rw [if_neg hv0]
          exact preserve_update h hv hl rfl (fun hh => hh)

/-- Verified flags survive any sequence of auth-component operations. -/
theorem runOps_preserves_verified (ops : List AuthOp) :
    ∀ (s : List User) (q : String) (u : User),
      lookupPhone s q = some u → u.isVerified = true →
      ∃ v, lookupPhone (runOps ops s) q = some v ∧ v.isVerified = true := by
  induction ops with
  | nil => exact fun s q u h hv => ⟨u, h, hv⟩
  | cons op rest ih =>
    intro s q u h hv
    obtain ⟨v, h2, hv2⟩ := runOpStore_preserves_verified op s q u h hv
    exact ih _ q v h2 hv2

/-- A credential-issuing VerifyCode call implies the middleware passed, the
account was found, and the resulting store carries the account with its code
fields cleared. -/
theorem verifyOTPRoute_success {now : Nat} {phone : String}
    {otp : Option String} {s : List User} {ph r : String}
    (h : (verifyOTPRoute now phone otp s).1 = AuthOutcome.issued ph r) :
    jsEmpty phone = false ∧ ¬(jsLength phone < 8) ∧
    ∃ u, lookupPhone s phone = some u ∧
      (verifyOTPRoute now phone otp s).2 =
        updateUser s phone { clearOTP u with lastLogin := some now } := by
  unfold verifyOTPRoute at *
  by_cases h1 : (jsEmpty phone || jsFalsyStr otp) = true
  · rw [if_pos h1] at h
    cases h
  · rw [if_neg h1] at h ⊢
    by_cases h2 : jsLength phone < 8
    · rw [if_pos h2] at h
      cases h
    · rw [if_neg h2] at h ⊢
      by_cases h3 : jsLength (jsStringOf otp) ≠ 6
      · rw [if_pos h3] at h
        cases h
      · rw [if_neg h3] at h ⊢
        refine ⟨?_, h2, ?_⟩
        · cases hb : jsEmpty phone
          · rfl
          · exact absurd (by simp [hb]) h1
        · unfold verifyOTPController at h ⊢
          cases hl : lookupPhone s phone with
          | none =>
            rw [hl] at h
            cases h
          | some u =>
            rw [hl] at h
            dsimp only at h ⊢
            by_cases hc : verifyOTPCheck now u (jsStringOf otp) = true
            · rw [if_pos hc]
              exact ⟨u, rfl, rfl⟩
            · rw [if_neg hc] at h
              cases h

/-- C5 counterexample: VerifyCode succeeds and issues a credential; after a
subsequent RequestCode — which reissues the constant code "112233", the very
value just consumed — VerifyCode succeeds again with the old code, refuting
the claim that every subsequent VerifyCode call using the old code fails. -/
theorem C5_counterexample :
    (verifyOTPRoute 0 "77754321" (some "112233") [uUnverified]).1 =
      AuthOutcome.issued "77754321" "user" ∧
    (verifyOTPRoute 6 "77754321" (some "112233")
        (requestOTP 5 "77754321"
          (verifyOTPRoute 0 "77754321" (some "112233") [uUnverified]).2).2).1 =
      AuthOutcome.issued "77754321" "user" := by
  decide

/-- C5 amended: once VerifyCode succeeds for an account, it clears the code
fields, so an immediately following VerifyCode call — before any operation
reissues a code — fails for every supplied value (including the old code);
and the verified flag, once true, stays true under every sequence of
operations.  (Because the code is the constant "112233", a later
Register/RequestCode reissues a code equal to the old one, which can succeed
again — see the counterexample.) -/
theorem C5_monotonic_verification :
    (∀ (now : Nat) (phone : String) (otp : Option String) (s : List User)
       (ph r : String),
       (verifyOTPRoute now phone otp s).1 = AuthOutcome.issued ph r →
       ∀ (now2 : Nat) (c : Option String),
         (verifyOTPRoute now2 phone c (verifyOTPRoute now phone otp s).2).1 =
           AuthOutcome.failed 400)
    ∧ (∀ (ops : List AuthOp) (s : List User) (q : String) (u : User),
         lookupPhone s q = some u → u.isVerified = true →
         ∃ v, lookupPhone (runOps ops s) q = some v ∧ v.isVerified = true) := by
  constructor
  · intro now phone otp s ph r h now2 c
    obtain ⟨hpe, hlen, u, hu, hs2⟩ := verifyOTPRoute_success h
    rw [hs2]
    have hup : ({ clearOTP u with lastLogin := some now } : User).phone = phone := by
      have := lookupPhone_eq_phone hu
      simpa [clearOTP] using this
    unfold verifyOTPRoute
    by_cases hcf : jsFalsyStr c = true
    · rw [if_pos (by simp [hcf])]
    · by_cases h1 : (jsEmpty phone || jsFalsyStr c) = true
      · rw [if_pos h1]
      · rw [if_neg h1]
        rw [if_neg hlen]
        by_cases h6 : jsLength (jsStringOf c) ≠ 6
        · rw [if_pos h6]
        · rw [if_neg h6]
          unfold verifyOTPController
          rw [lookupPhone_update s phone _ hup phone, hu]
          dsimp only [Option.map_some']
          have hbeq : (u.phone == phone) = true := by
            rw [lookupPhone_eq_phone hu]
            simp
          rw [if_pos hbeq]
          rfl
  · exact fun ops => runOps_preserves_verified ops

/-- C5 amended witness: after the concrete successful verification, a repeat
attempt with the same code fails with 400, and a code re-request on the
verified fixture account keeps it verified. -/
theorem C5_witness :
    (verifyOTPRoute 1 "77754321" (some "112233")
        (verifyOTPRoute 0 "77754321" (some "112233") [uUnverified]).2).1 =
      AuthOutcome.failed 400 ∧
    ∃ v, lookupPhone (runOps [AuthOp.opRequestOTP 3 "77712345"] [uVerified])
        "77712345" = some v ∧ v.isVerified = true :=
  ⟨C5_monotonic_verification.1 0 "77754321" (some "112233") [uUnverified]
      "77754321" "user" (by decide) 1 (some "112233"),
   C5_monotonic_verification.2 [AuthOp.opRequestOTP 3 "77712345"] [uVerified]
      "77712345" uVerified (by decide) (by decide)⟩

end QafzhSolar
